import Mathlib

set_option linter.unusedVariables false

set_option allowUnsafeReducibility true

attribute [semireducible] Rat.add Rat.mul Rat.inv Rat.sub Rat.div

/- Verification of the document synchronization and autosave engine of the
   repository: a shallow embedding of the document session controller
   (app/frontend/widgets/document-canvas/hooks/use-document-scene.ts), the
   dual-canvas mirror (hooks/use-dual-canvas.ts) and the unlock gate
   (useDocumentUnlock).  Scene element arrays, appState objects and file maps
   are compared by JavaScript reference identity in the source; they are
   modelled as opaque identity tokens (Nat).  Timestamps (Date.now()) are
   modelled as Int milliseconds.  JavaScript numbers in camera states are
   modelled as rationals. -/

/-- JS Math.round: rounds half toward positive infinity. -/
def jsRound (q : ℚ) : ℤ := (q + 1/2).floor

/-- A camera record as received from the rendering surface: `zoom.value`,
`scrollX`, `scrollY`.  Each field may be absent (the source applies the
defaults `?? 1`, `?? 0`, `?? 0`). -/
structure CameraState where
  zoom : Option ℚ
  scrollX : Option ℚ
  scrollY : Option ℚ
deriving DecidableEq

/-- The rounded camera fingerprint.  The source JSON-stringifies the record
with the fixed key order zoom, scrollX, scrollY, so string equality of the
produced signatures coincides with equality of this record. -/
structure CameraSig where
  zoom : ℚ
  scrollX : ℤ
  scrollY : ℤ
deriving DecidableEq

/-- Source: use-document-scene.ts, computeViewerCameraSig (lines 24-41).
Zoom is rounded to 3 decimal places (Math.round(zoomValue * 1000) / 1000),
scroll offsets to the nearest pixel. -/
def computeViewerCameraSig (viewerState : CameraState) : CameraSig :=
  let zoomValue := viewerState.zoom.getD 1
  let scrollX := viewerState.scrollX.getD 0
  let scrollY := viewerState.scrollY.getD 0
  { zoom := (jsRound (zoomValue * 1000) : ℚ) / 1000
    scrollX := jsRound scrollX
    scrollY := jsRound scrollY }

/-- A scene: element records and file blobs are opaque identity-bearing
records in the source, modelled as tokens; the two camera states are either
a non-empty camera object (some) or missing/empty (none, the source checks
Object.keys(x).length > 0). -/
structure Scene where
  elements : List Nat
  appState : Nat
  files : List (String × Nat)
  viewerAppState : Option CameraState
  editorAppState : Option CameraState
deriving DecidableEq

/-- Modelled from the spec: computeDocumentSignature is imported from
a processes module that is not under src/.  Per spec section 4.1 it is a
deterministic content fingerprint of elements, the persisted-relevant subset
of appState (modelled as an opaque token) and files, always returning a
value; its internals are otherwise irrelevant to the claims. -/
def computeDocumentSignature (elements : List Nat) (appState : Nat)
    (files : List (String × Nat)) : String :=
  "sig:" ++ String.intercalate "," (elements.map toString)
    ++ ";" ++ toString appState
    ++ ";" ++ String.intercalate "," (files.map (fun kv => kv.1 ++ ":" ++ toString kv.2))

/-- Modelled from the spec: toSceneFromDoc is imported from a shared library
that is not under src/.  It converts a (possibly null) document payload into
a Scene; a null payload yields an empty scene. -/
def toSceneFromDoc (doc : Option Scene) : Scene :=
  match doc with
  | some d => d
  | none => { elements := [], appState := 0, files := [], viewerAppState := none, editorAppState := none }

/-- The reserved blank-document id (DEFAULT_DOCUMENT_WA_ID = ""). -/
def DEFAULT_DOCUMENT_WA_ID : String := ""

/-- The saveState union of use-document-scene.ts (lines 47-53). -/
inductive SaveState
  | idle
  | dirty
  | saving
  | saved (atTime : ℤ)
  | error (message : Option String)
deriving DecidableEq

/-- Whether a status reads saved. -/
def isSavedStatus : SaveState → Bool
  | SaveState.saved _ => true
  | _ => false

/-- Arguments of one change notification delivered to
handleCanvasChangeInternal: elements / appState / files by reference token,
plus the optional viewer and editor camera states. -/
structure ChangeInput where
  elements : Nat
  appState : Nat
  files : Nat
  viewerAppState : Option CameraState
  editorAppState : Option CameraState
deriving DecidableEq

/-- Payload handed to the idle controller's schedule() (lines 509-516),
tagged with the waId the controller was created for. -/
structure IdlePayload where
  forWaId : String
  elements : Nat
  appState : Nat
  files : Nat
  viewerAppState : Option CameraState
  editorAppState : Option CameraState
deriving DecidableEq

/-- Which code path issued a persist call. -/
inductive Channel
  | idleTimer
  | flushNowCh
  | pagehide
  | heartbeat
deriving DecidableEq

/-- Observation: a persist call handed to the external persister, tagged
with the waId of the controller that issued it. -/
structure PersistCall where
  channel : Channel
  forWaId : String
deriving DecidableEq

/-- The session state of useDocumentScene: the React state (saveState,
loading) plus every ref of the hook, the idle/interval controller state,
and the globalThis mirror flags (__docIsSaving,
__docHasLocalEditsDuringSave, __docIgnoreChangesUntil). -/
structure SessionState where
  enabled : Bool
  isUnlocked : Bool
  waId : String
  saveState : SaveState
  loading : Bool
  lastLoadedWaId : Option String
  lastSavedSig : Option String
  ignoreChangesUntil : ℤ
  isSaving : Bool
  hasLocalEditsSinceSaving : Bool
  initialSceneApplied : Bool
  latestElements : Option Nat
  latestAppState : Option Nat
  latestFiles : Option Nat
  latestSig : Option String
  lastScheduledSig : Option String
  lastSavedViewerSig : Option CameraSig
  lastSavedEditorSig : Option CameraSig
  viewerAppState : Option CameraState
  editorAppState : Option CameraState
  isDirty : Bool
  idlePending : Option IdlePayload
  idleFlushLastSavedSig : Option String
  intervalRunning : Bool
  globalIsSaving : Bool
  globalHasLocalEdits : Bool
  globalIgnoreChangesUntil : ℤ
deriving DecidableEq

/-- Initial state of a freshly mounted hook: all refs at their useRef
initial values, no subject bound yet. -/
def initialState (enabled isUnlocked : Bool) : SessionState :=
  { enabled := enabled
    isUnlocked := isUnlocked
    waId := ""
    saveState := SaveState.idle
    loading := false
    lastLoadedWaId := none
    lastSavedSig := none
    ignoreChangesUntil := 0
    isSaving := false
    hasLocalEditsSinceSaving := false
    initialSceneApplied := false
    latestElements := none
    latestAppState := none
    latestFiles := none
    latestSig := none
    lastScheduledSig := none
    lastSavedViewerSig := none
    lastSavedEditorSig := none
    viewerAppState := none
    editorAppState := none
    isDirty := false
    idlePending := none
    idleFlushLastSavedSig := none
    intervalRunning := false
    globalIsSaving := false
    globalHasLocalEdits := false
    globalIgnoreChangesUntil := 0 }

/-- Viewer-camera classification of handleCanvasChangeInternal (lines
437-444): changed exactly when the new rounded signature differs from the
last saved viewer signature (null compares unequal to any string). -/
def viewerCameraChangedOf (s : SessionState) (inp : ChangeInput) : Bool :=
  match inp.viewerAppState with
  | none => false
  | some v => if some (computeViewerCameraSig v) = s.lastSavedViewerSig then false else true

/-- Editor-camera classification of handleCanvasChangeInternal (lines
446-454), against the last saved editor signature. -/
def editorCameraChangedOf (s : SessionState) (inp : ChangeInput) : Bool :=
  match inp.editorAppState with
  | none => false
  | some v => if some (computeViewerCameraSig v) = s.lastSavedEditorSig then false else true

/-- Content classification (lines 456-471): the element array or the files
map is a different reference than last observed.  (The length fallback in
the source runs only when the references are equal, in which case the
lengths are necessarily equal too, so it never adds a change.) -/
def contentChangedOf (s : SessionState) (inp : ChangeInput) : Bool :=
  (if s.latestElements = some inp.elements then false else true) ||
  (if s.latestFiles = some inp.files then false else true)

/-- Body of handleCanvasChangeInternal after all gates passed (lines
436-518).  The source applies these as sequential ref mutations; the
net effect is the single record update below (the dirty-transition check
reads isSavingRef and isDirtyRef, which no earlier line of the call
mutates). -/
def acceptChange (s : SessionState) (inp : ChangeInput) : SessionState :=
  let viewerChanged := viewerCameraChangedOf s inp
  let editorChanged := editorCameraChangedOf s inp
  let contentChanged := contentChangedOf s inp
  let hasChangesForStatus := contentChanged || editorChanged
  let hasAnyChanges := contentChanged || viewerChanged || editorChanged
  let viewerAppState1 := match inp.viewerAppState with
    | some v => if viewerChanged then some v else s.viewerAppState
    | none => s.viewerAppState
  let editorAppState1 := match inp.editorAppState with
    | some v => if editorChanged then some v else s.editorAppState
    | none => s.editorAppState
  let markEdits := s.isSaving && (contentChanged || editorChanged)
  let becomeDirty := hasChangesForStatus && !s.isSaving && !s.isDirty
  { s with
    viewerAppState := viewerAppState1
    editorAppState := editorAppState1
    latestElements := some inp.elements
    latestAppState := some inp.appState
    latestFiles := some inp.files
    latestSig := none
    hasLocalEditsSinceSaving := if markEdits then true else s.hasLocalEditsSinceSaving
    globalHasLocalEdits := if markEdits then true else s.globalHasLocalEdits
    isDirty := if becomeDirty then true else s.isDirty
    saveState := if becomeDirty then SaveState.dirty else s.saveState
    lastScheduledSig := if hasAnyChanges then none else s.lastScheduledSig
    idlePending := if hasAnyChanges then
        some { forWaId := s.waId, elements := inp.elements, appState := inp.appState,
               files := inp.files, viewerAppState := viewerAppState1,
               editorAppState := editorAppState1 }
      else s.idlePending }

/-- handleCanvasChangeInternal (lines 415-521): the guard chain followed by
the accepted-change body. -/
def handleCanvasChangeInternal (s : SessionState) (inp : ChangeInput) (now : ℤ) : SessionState :=
  if s.enabled = false ∨ s.waId = "" ∨ s.isUnlocked = false then s
  else if s.initialSceneApplied = false then s
  else if now < s.ignoreChangesUntil then s
  else if s.globalIgnoreChangesUntil ≠ 0 ∧ now < s.globalIgnoreChangesUntil then s
  else acceptChange s inp

/-- onSaving callback of the idle autosave controller (lines 198-217). -/
def onSavingIdleStep (s : SessionState) : SessionState :=
  { s with isSaving := true
           hasLocalEditsSinceSaving := false
           globalIsSaving := true
           globalHasLocalEdits := false
           saveState := SaveState.saving }

/-- onSaving callback of the interval autosave controller (lines 288-306);
its body is identical to the idle one. -/
def onSavingIntervalStep (s : SessionState) : SessionState :=
  { s with isSaving := true
           hasLocalEditsSinceSaving := false
           globalIsSaving := true
           globalHasLocalEdits := false
           saveState := SaveState.saving }

/-- onSaved callback of the idle controller (lines 218-264): record the
saved scene's content signature (if truthy) and camera signatures (if the
camera objects are non-empty), clear the in-flight flags, then resolve to
dirty if local edits arrived during the save and to saved otherwise. -/
def onSavedIdleStep (s : SessionState) (scene : Scene) (now : ℤ) : SessionState :=
  let sig := computeDocumentSignature scene.elements scene.appState scene.files
  { s with
    lastSavedSig := if sig = "" then s.lastSavedSig else some sig
    lastSavedViewerSig := match scene.viewerAppState with
      | some v => some (computeViewerCameraSig v)
      | none => s.lastSavedViewerSig
    lastSavedEditorSig := match scene.editorAppState with
      | some v => some (computeViewerCameraSig v)
      | none => s.lastSavedEditorSig
    isSaving := false
    globalIsSaving := false
    lastScheduledSig := none
    isDirty := if s.hasLocalEditsSinceSaving then true else false
    saveState := if s.hasLocalEditsSinceSaving then SaveState.dirty else SaveState.saved now
    ignoreChangesUntil := if s.hasLocalEditsSinceSaving then s.ignoreChangesUntil else now + 800 }

/-- onSaved callback of the interval controller (lines 307-326): same
resolution logic but no signature bookkeeping. -/
def onSavedIntervalStep (s : SessionState) (now : ℤ) : SessionState :=
  { s with
    isSaving := false
    globalIsSaving := false
    lastScheduledSig := none
    isDirty := if s.hasLocalEditsSinceSaving then true else false
    saveState := if s.hasLocalEditsSinceSaving then SaveState.dirty else SaveState.saved now
    ignoreChangesUntil := if s.hasLocalEditsSinceSaving then s.ignoreChangesUntil else now + 800 }

/-- onError callback of the idle controller (lines 265-283). -/
def onErrorIdleStep (s : SessionState) (message : Option String) : SessionState :=
  { s with isSaving := false
           lastScheduledSig := none
           globalIsSaving := false
           saveState := SaveState.error message }

/-- onError callback of the interval controller (lines 327-344); its body is
identical to the idle one. -/
def onErrorIntervalStep (s : SessionState) (message : Option String) : SessionState :=
  { s with isSaving := false
           lastScheduledSig := none
           globalIsSaving := false
           saveState := SaveState.error message }

/-- Handler of the documents:sceneApplied window event (lines 711-727):
registered only while a subject is bound; for a matching subject it marks
the initial scene applied and opens a 400 ms suppression window. -/
def sceneAppliedStep (s : SessionState) (wa : String) (now : ℤ) : SessionState :=
  if s.waId = "" then s
  else if wa ≠ s.waId then s
  else { s with initialSceneApplied := true, ignoreChangesUntil := now + 400 }

/-- Handler of the documents:external-update window event (lines 615-708).
Registered only while a subject is bound; an event whose wa_id is empty or
differs from the bound subject is ignored.  A matching event records the
received scene's signatures as the last-saved baselines, clears the global
save flags, resolves status to saved(now), ends loading, opens a
suppression window and marks the initial scene applied; it then dispatches
documents:sceneApplied, which synchronously re-enters sceneAppliedStep for
the same subject (overwriting the 1200 ms window with a 400 ms one). -/
def externalUpdateStep (s : SessionState) (wa : String) (doc : Option Scene) (now : ℤ) : SessionState :=
  if s.waId = "" then s
  else if wa = "" ∨ wa ≠ s.waId then s
  else
    let scene := toSceneFromDoc doc
    let sig := computeDocumentSignature scene.elements scene.appState scene.files
    let s1 := { s with
      lastLoadedWaId := some s.waId
      lastSavedSig := some sig
      lastSavedViewerSig := match scene.viewerAppState with
        | some v => some (computeViewerCameraSig v)
        | none => none
      viewerAppState := match scene.viewerAppState with
        | some v => some v
        | none => s.viewerAppState
      lastSavedEditorSig := match scene.editorAppState with
        | some v => some (computeViewerCameraSig v)
        | none => none
      editorAppState := match scene.editorAppState with
        | some v => some v
        | none => s.editorAppState
      globalIsSaving := false
      globalHasLocalEdits := false
      idleFlushLastSavedSig := some sig
      saveState := SaveState.saved now
      loading := false
      ignoreChangesUntil := now + 1200
      initialSceneApplied := true
      isDirty := false }
    sceneAppliedStep s1 s1.waId now

/-- Effect re-runs on a waId change (switching the bound subject).  First
the cleanups of the previous effect instances run: the idle controller's
pending timer is cancelled and the interval controller stopped (lines
346-353).  Then the load effect's synchronous prefix (lines 78-107) resets
the initial-scene gate and both camera trackers (for a non-empty subject;
the effect returns early on an empty waId before any reset), checks the
duplicate-load guard, and enters the loading state; the controller-init
effect (lines 191-195) recreates both controllers and resets the dirty
flag.  The asynchronous remainder of the load effect (template
initialization, REST polling, WS request) issues no persist and is not part
of this synchronous step. -/
def switchSubjectStep (s : SessionState) (newWa : String) : SessionState :=
  let s0 := { s with waId := newWa, idlePending := none, intervalRunning := false }
  let s1 := if s0.enabled = true ∧ newWa ≠ "" then
      { s0 with initialSceneApplied := false
                lastSavedViewerSig := none
                viewerAppState := none
                lastSavedEditorSig := none
                editorAppState := none }
    else s0
  let s2 := if newWa ≠ "" then { s1 with isDirty := false, idleFlushLastSavedSig := none } else s1
  if s2.enabled = true ∧ newWa ≠ "" ∧ s2.lastLoadedWaId ≠ some newWa then
    { s2 with loading := true, saveState := SaveState.idle }
  else s2

/-- Modelled from the spec: flushImmediate of the idle autosave controller
(created by createIdleAutosaveController, which lives outside src/).  Per
spec section 4.2 it persists immediately, bypassing the timer, but must
respect the already-saving guard; callbacks wired at controller creation
report the save start. -/
def flushImmediateStep (ch : Channel) (s : SessionState) : SessionState × List PersistCall :=
  if s.isSaving = true then (s, [])
  else (onSavingIdleStep s, [{ channel := ch, forWaId := s.waId }])

/-- The exposed flushNow operation (lines 736-756): gated on enabled, a
bound subject, unlock and the initial scene having been applied, then a
flushImmediate on the idle controller. -/
def flushNowStep (s : SessionState) : SessionState × List PersistCall :=
  if s.enabled = false ∨ s.waId = "" ∨ s.isUnlocked = false then (s, [])
  else if s.initialSceneApplied = false then (s, [])
  else flushImmediateStep Channel.flushNowCh s

/-- The tab-hide / page-unload flush (lines 583-612): its listener is
registered only when enabled with a bound subject, and the handler bails
out when locked; it is not gated on the initial scene. -/
def visibilityFlushStep (s : SessionState) : SessionState × List PersistCall :=
  if s.enabled = false ∨ s.waId = "" then (s, [])
  else if s.isUnlocked = false then (s, [])
  else flushImmediateStep Channel.pagehide s

/-- Modelled from the spec: the idle scheduler's timer firing (spec section
4.2): a no-op when nothing is pending; otherwise it calls onSaving and
issues one persist with the pending payload, respecting the save-in-flight
guard. -/
def idleFireStep (s : SessionState) : SessionState × List PersistCall :=
  match s.idlePending with
  | none => (s, [])
  | some p =>
    if s.isSaving = true then (s, [])
    else (onSavingIdleStep { s with idlePending := none },
          [{ channel := Channel.idleTimer, forWaId := p.forWaId }])

/-- The heartbeat start effect (lines 357-390): a re-run first stops any
running interval (its cleanup), then starts it only when enabled, a subject
is bound, the document is unlocked and the initial scene has been
applied. -/
def heartbeatStartStep (s : SessionState) : SessionState :=
  let s0 := { s with intervalRunning := false }
  if s0.enabled = true ∧ s0.waId ≠ "" ∧ s0.isUnlocked = true ∧ s0.initialSceneApplied = true then
    { s0 with intervalRunning := true }
  else s0

/-- Modelled from the spec: one interval tick of the heartbeat controller
(spec section 4.2): while running and no save is in flight it calls
onSaving and issues a persist attempt with freshly pulled state. -/
def heartbeatTickStep (s : SessionState) : SessionState × List PersistCall :=
  if s.intervalRunning = true ∧ s.isSaving = false then
    (onSavingIntervalStep s, [{ channel := Channel.heartbeat, forWaId := s.waId }])
  else (s, [])

/-- The events that drive one session: change notifications, scheduler
firings and resolutions, external updates, subject switches and flushes. -/
inductive Event
  | canvasChange (inp : ChangeInput) (now : ℤ)
  | idleFire
  | heartbeatStart
  | heartbeatTick
  | saveResolvedIdle (scene : Scene) (now : ℤ)
  | saveResolvedInterval (now : ℤ)
  | saveFailedIdle (message : Option String)
  | saveFailedInterval (message : Option String)
  | externalUpdate (wa : String) (doc : Option Scene) (now : ℤ)
  | sceneApplied (wa : String) (now : ℤ)
  | switchSubject (newWa : String)
  | flushNowCall
  | visibilityFlush
deriving DecidableEq

/-- Whether an event is a subject switch. -/
def Event.isSwitch : Event → Bool
  | Event.switchSubject _ => true
  | _ => false

/-- Whether an event is an external-update delivery. -/
def Event.isExternalUpdate : Event → Bool
  | Event.externalUpdate _ _ _ => true
  | _ => false

/-- Whether an event is the resolution (success or failure) of an
outstanding persist. -/
def Event.isResolution : Event → Bool
  | Event.saveResolvedIdle _ _ => true
  | Event.saveResolvedInterval _ => true
  | Event.saveFailedIdle _ => true
  | Event.saveFailedInterval _ => true
  | _ => false

/-- Whether an event can mark the initial scene applied for subject wa. -/
def Event.isApplyFor (e : Event) (wa : String) : Bool :=
  match e with
  | Event.externalUpdate w _ _ => w = wa
  | Event.sceneApplied w _ => w = wa
  | _ => false

/-- One step of the session: the new state and the persist calls issued. -/
def step (s : SessionState) : Event → SessionState × List PersistCall
  | Event.canvasChange inp now => (handleCanvasChangeInternal s inp now, [])
  | Event.idleFire => idleFireStep s
  | Event.heartbeatStart => (heartbeatStartStep s, [])
  | Event.heartbeatTick => heartbeatTickStep s
  | Event.saveResolvedIdle scene now => (onSavedIdleStep s scene now, [])
  | Event.saveResolvedInterval now => (onSavedIntervalStep s now, [])
  | Event.saveFailedIdle message => (onErrorIdleStep s message, [])
  | Event.saveFailedInterval message => (onErrorIntervalStep s message, [])
  | Event.externalUpdate wa doc now => (externalUpdateStep s wa doc now, [])
  | Event.sceneApplied wa now => (sceneAppliedStep s wa now, [])
  | Event.switchSubject newWa => (switchSubjectStep s newWa, [])
  | Event.flushNowCall => flushNowStep s
  | Event.visibilityFlush => visibilityFlushStep s

/-- Run a list of events, accumulating the persist calls issued. -/
def runTrace (s : SessionState) : List Event → SessionState × List PersistCall
  | [] => (s, [])
  | e :: rest =>
    let r1 := step s e
    let r2 := runTrace r1.1 rest
    (r2.1, r1.2 ++ r2.2)

/-- The three camera fields of the editor appState, compared by JS
reference identity in use-dual-canvas.ts (lines 305-320); modelled as
identity tokens. -/
structure EditorCameraTokens where
  zoom : Nat
  scrollX : Nat
  scrollY : Nat
deriving DecidableEq

/-- One updateScene call pushed to the viewer canvas: the mirrored
elements, plus optionally an appState (the tracked viewer camera) and
files; none means the field is not included in the update. -/
structure ViewerUpdate where
  elements : Nat
  appState : Option Nat
  files : Option Nat
deriving DecidableEq

/-- Observations of the mirror: updateScene calls on the viewer API and
the forwarding call into the session controller's change intake. -/
inductive MirrorObs
  | updateScene (u : ViewerUpdate)
  | intakeCall (elements : Nat) (appState : EditorCameraTokens) (files : Nat)
      (viewerCamera : Nat) (editorCamera : EditorCameraTokens)
deriving DecidableEq

/-- The refs of useDualCanvas relevant to the editor-change mirror path:
the tracked viewer camera (token), the throttle clock, the queued payload,
the pending animation frame (with its captured elements/files) and the
pending timeout, plus the reused editor-camera object. -/
structure MirrorState where
  viewerCamera : Nat
  lastLiveSceneUpdate : ℤ
  pendingLiveScene : Option (Nat × Nat)
  rafSlot : Option (Nat × Nat)
  timeoutPending : Bool
  lastEditorCamera : Option EditorCameraTokens
deriving DecidableEq

/-- handleCanvasChange of use-dual-canvas.ts (lines 193-331).  During an
active pointer interaction it cancels any pending animation frame and
timeout and pushes an elements-only update synchronously; otherwise it
batches to one animation frame per 16 ms window, queueing a superseding
payload when inside the window.  In both regimes it then refreshes the
reused editor-camera object and forwards the change to the session
intake. -/
def handleCanvasChange (m : MirrorState) (elements : Nat) (appState : EditorCameraTokens)
    (files : Nat) (pointerActive : Bool) (hasViewerApi : Bool) (now : ℤ) :
    MirrorState × List MirrorObs :=
  let lastEditorCamera1 := match m.lastEditorCamera with
    | some c => if c.zoom ≠ appState.zoom ∨ c.scrollX ≠ appState.scrollX ∨ c.scrollY ≠ appState.scrollY
        then some appState else some c
    | none => some appState
  let editorCam := lastEditorCamera1.getD appState
  let intake := MirrorObs.intakeCall elements appState files m.viewerCamera editorCam
  if pointerActive = true then
    let m1 := { m with rafSlot := none, timeoutPending := false, lastEditorCamera := lastEditorCamera1 }
    let pushes := if hasViewerApi = true then
        [MirrorObs.updateScene { elements := elements, appState := none, files := none }]
      else []
    (m1, pushes ++ [intake])
  else
    if now - m.lastLiveSceneUpdate ≥ 16 then
      ({ m with lastLiveSceneUpdate := now, rafSlot := some (elements, files),
                timeoutPending := false, lastEditorCamera := lastEditorCamera1 },
       [intake])
    else
      let m1 := { m with pendingLiveScene := some (elements, files), lastEditorCamera := lastEditorCamera1 }
      let m2 := if m1.rafSlot = none ∧ m1.timeoutPending = false then { m1 with timeoutPending := true } else m1
      (m2, [intake])

/-- The animation frame scheduled by the idle regime firing (lines
247-265): it pushes the captured elements and files together with the
currently tracked viewer camera. -/
def mirrorRafFire (m : MirrorState) : MirrorState × List MirrorObs :=
  match m.rafSlot with
  | none => (m, [])
  | some ef =>
    ({ m with rafSlot := none },
     [MirrorObs.updateScene { elements := ef.1, appState := some m.viewerCamera, files := some ef.2 }])

/-- The throttle timeout firing (lines 274-300): promotes the queued
payload to a fresh animation frame. -/
def mirrorTimeoutFire (m : MirrorState) (now : ℤ) : MirrorState × List MirrorObs :=
  if m.timeoutPending = false then (m, [])
  else match m.pendingLiveScene with
    | none => ({ m with timeoutPending := false }, [])
    | some ef =>
      ({ m with timeoutPending := false, pendingLiveScene := none,
                lastLiveSceneUpdate := now, rafSlot := some ef }, [])

/-- Model of JS String.prototype.trim: strip leading and trailing
whitespace (whitespace per Char.isWhitespace; the JS definition covers the
same ASCII whitespace plus further Unicode space characters that do not
occur in the repository's inputs). -/
def jsTrim (s : String) : String :=
  String.mk (((s.data.dropWhile Char.isWhitespace).reverse.dropWhile Char.isWhitespace).reverse)

/-- Model of JS String.prototype.startsWith. -/
def jsStartsWith (s p : String) : Bool :=
  p.data.isPrefixOf s.data

/-- A cell value returned by the customer data source: a string, some
other value, or null/undefined. -/
inductive CellValue
  | str (value : String)
  | num (value : ℤ)
  | null
deriving DecidableEq

/-- recomputeUnlock of useDocumentUnlock (unnamed part, lines 20-56).  The
early return locks when no real subject is selected; otherwise the name
and phone cells are fetched (modelled as an Except: the source wraps the
whole computation in try/catch and any thrown error locks).  The document
unlocks exactly when the name cell is a string with non-blank trim and the
phone cell is a string whose trim starts with "+" (and the subject check,
re-evaluated as waIdOk, holds). -/
def recomputeUnlock (waId : String) (fetch : Except String (CellValue × CellValue)) : Bool :=
  if waId = "" ∨ waId = DEFAULT_DOCUMENT_WA_ID then false
  else
    match fetch with
    | Except.error _ => false
    | Except.ok nv =>
      let nameOk := match nv.1 with
        | CellValue.str v => decide (0 < (jsTrim v).length)
        | _ => false
      let phoneOk := match nv.2 with
        | CellValue.str v => jsStartsWith (jsTrim v) "+"
        | _ => false
      let waIdOk := decide (¬(waId = "" ∨ waId = DEFAULT_DOCUMENT_WA_ID))
      nameOk && phoneOk && waIdOk

/-- A camera at zoom 1, origin scroll. -/
def camOrigin : CameraState := { zoom := some 1, scrollX := some 0, scrollY := some 0 }

/-- A camera at zoom 1, panned 10 pixels right. -/
def camPanned : CameraState := { zoom := some 1, scrollX := some 10, scrollY := some 0 }

/-- A loaded document scene for subject 201, carrying a viewer camera. -/
def scene201 : Scene :=
  { elements := [1, 2, 3], appState := 7, files := [], viewerAppState := some camOrigin,
    editorAppState := none }

/-- The scene reported back by a successful idle persist. -/
def sceneSaved : Scene :=
  { elements := [1, 2, 3, 4], appState := 7, files := [], viewerAppState := none,
    editorAppState := none }

/-- A session with subject 201 freshly bound (mount followed by selecting
subject 201). -/
def boundState : SessionState := switchSubjectStep (initialState true true) "201"

/-- Run for the C1 counterexample: bind 201, apply its document, make an
edit, let the idle save fire, edit again while the save is in flight, then
receive an external update before the persist resolves. -/
def racedTrace : List Event :=
  [Event.switchSubject "201",
   Event.externalUpdate "201" (some scene201) 1000,
   Event.canvasChange { elements := 1, appState := 1, files := 1, viewerAppState := none, editorAppState := none } 2000,
   Event.idleFire,
   Event.canvasChange { elements := 2, appState := 1, files := 1, viewerAppState := none, editorAppState := none } 2100,
   Event.externalUpdate "201" (some scene201) 3000]

/-- Final state of the raced run. -/
def racedFinal : SessionState := (runTrace (initialState true true) racedTrace).1

/-- Run for the C5 counterexample: bind 201, apply its document, edit, let
the idle save fire and resolve cleanly, so the session sits in saved with
clean trackers. -/
def viewerOnlyTrace : List Event :=
  [Event.switchSubject "201",
   Event.externalUpdate "201" (some scene201) 1000,
   Event.canvasChange { elements := 1, appState := 1, files := 1, viewerAppState := none, editorAppState := none } 2000,
   Event.idleFire,
   Event.saveResolvedIdle sceneSaved 3000]

/-- State of the session right before the viewer-camera-only change. -/
def viewerOnlyPre : SessionState := (runTrace (initialState true true) viewerOnlyTrace).1

/-- A change notification whose elements and files are the same references
as last observed and which carries only a panned viewer camera. -/
def viewerOnlyInput : ChangeInput :=
  { elements := 1, appState := 1, files := 1, viewerAppState := some camPanned, editorAppState := none }

/-- State after the accepted viewer-camera-only change. -/
def viewerOnlyPost : SessionState := handleCanvasChangeInternal viewerOnlyPre viewerOnlyInput 4000

/-- A bound session whose initial scene has been applied, with no save in
flight and a clean dirty flag. -/
def freshEditableState : SessionState :=
  { initialState true true with waId := "201", initialSceneApplied := true }

/-- A camera whose rounded signature equals that of camNearB: zoom 1.0004,
scroll (16/3, 2). -/
def camNearA : CameraState :=
  { zoom := some (10004/10000), scrollX := some (16/3), scrollY := some 2 }

/-- A camera distinct from camNearA but equal after rounding: zoom 1.0001,
scroll (5.1, 2). -/
def camNearB : CameraState :=
  { zoom := some (10001/10000), scrollX := some (51/10), scrollY := some 2 }


theorem acceptChange_saveState (s : SessionState) (inp : ChangeInput) :
    (acceptChange s inp).saveState =
      (if ((contentChangedOf s inp || editorCameraChangedOf s inp) && !s.isSaving && !s.isDirty) = true
       then SaveState.dirty else s.saveState) := rfl

theorem acceptChange_hasLocalEdits (s : SessionState) (inp : ChangeInput) :
    (acceptChange s inp).hasLocalEditsSinceSaving =
      (if (s.isSaving && (contentChangedOf s inp || editorCameraChangedOf s inp)) = true
       then true else s.hasLocalEditsSinceSaving) := rfl

theorem acceptChange_isSaving (s : SessionState) (inp : ChangeInput) :
    (acceptChange s inp).isSaving = s.isSaving := rfl

theorem acceptChange_waId (s : SessionState) (inp : ChangeInput) :
    (acceptChange s inp).waId = s.waId := rfl

theorem acceptChange_initialSceneApplied (s : SessionState) (inp : ChangeInput) :
    (acceptChange s inp).initialSceneApplied = s.initialSceneApplied := rfl

theorem acceptChange_intervalRunning (s : SessionState) (inp : ChangeInput) :
    (acceptChange s inp).intervalRunning = s.intervalRunning := rfl

theorem acceptChange_idlePending (s : SessionState) (inp : ChangeInput) :
    (acceptChange s inp).idlePending =
      (if (contentChangedOf s inp || viewerCameraChangedOf s inp || editorCameraChangedOf s inp) = true
       then some { forWaId := s.waId, elements := inp.elements, appState := inp.appState,
                   files := inp.files,
                   viewerAppState := (acceptChange s inp).viewerAppState,
                   editorAppState := (acceptChange s inp).editorAppState }
       else s.idlePending) := rfl

/-- All gate conditions of handleCanvasChangeInternal return the state
unchanged: no subject bound, locked, initial scene not applied, inside the
per-session suppression window, or inside the global suppression window.
(The enabled=false gate also returns unchanged but is not part of the
spec's list.) -/
theorem handleCanvasChangeInternal_gated (s : SessionState) (inp : ChangeInput) (now : ℤ)
    (h : s.waId = "" ∨ s.isUnlocked = false ∨ s.initialSceneApplied = false ∨
         now < s.ignoreChangesUntil ∨
         (s.globalIgnoreChangesUntil ≠ 0 ∧ now < s.globalIgnoreChangesUntil)) :
    handleCanvasChangeInternal s inp now = s := by
  unfold handleCanvasChangeInternal
  split_ifs with h1 h2 h3 h4
  · rfl
  · rfl
  · rfl
  · rfl
  · exfalso
    rcases h with h | h | h | h | h
    · exact h1 (Or.inr (Or.inl h))
    · exact h1 (Or.inr (Or.inr h))
    · exact h2 h
    · exact h3 h
    · exact h4 h

/-- The session-level invariant relating the saved status to the
edits-during-save and in-flight flags. -/
def StatusInvariant (s : SessionState) : Prop :=
  isSavedStatus s.saveState = true → s.hasLocalEditsSinceSaving = false ∧ s.isSaving = false

instance (s : SessionState) : Decidable (StatusInvariant s) := by
  unfold StatusInvariant
  infer_instance

theorem statusInvariant_acceptChange (s : SessionState) (inp : ChangeInput)
    (h : StatusInvariant s) : StatusInvariant (acceptChange s inp) := by
  intro hsaved
  rw [acceptChange_saveState] at hsaved
  rw [acceptChange_hasLocalEdits, acceptChange_isSaving]
  by_cases hbd : ((contentChangedOf s inp || editorCameraChangedOf s inp) && !s.isSaving && !s.isDirty) = true
  · rw [if_pos hbd] at hsaved
    simp [isSavedStatus] at hsaved
  · rw [if_neg hbd] at hsaved
    obtain ⟨he1, hs1⟩ := h hsaved
    simp [hs1, he1]

theorem statusInvariant_step (s : SessionState) (e : Event)
    (h : StatusInvariant s) (he : e.isExternalUpdate = false) :
    StatusInvariant (step s e).1 := by
  cases e with
  | canvasChange inp now =>
    simp only [step]
    unfold handleCanvasChangeInternal
    split_ifs
    · exact h
    · exact h
    · exact h
    · exact h
    · exact statusInvariant_acceptChange s inp h
  | idleFire =>
    simp only [step, idleFireStep]
    intro hsaved
    cases hp : s.idlePending with
    | none => simp only [hp] at hsaved ⊢; exact h hsaved
    | some p =>
      simp only [hp] at hsaved ⊢
      split_ifs at hsaved ⊢ with hs
      · exact h hsaved
      · simp [onSavingIdleStep, isSavedStatus] at hsaved
  | heartbeatStart =>
    simp only [step, heartbeatStartStep]
    intro hsaved
    split_ifs at hsaved ⊢ <;> exact h hsaved
  | heartbeatTick =>
    simp only [step, heartbeatTickStep]
    intro hsaved
    split_ifs at hsaved ⊢ with hs
    · simp [onSavingIntervalStep, isSavedStatus] at hsaved
    · exact h hsaved
  | saveResolvedIdle scene now =>
    simp only [step]
    intro hsaved
    unfold onSavedIdleStep at hsaved ⊢
    by_cases hle : s.hasLocalEditsSinceSaving = true
    · simp [hle, isSavedStatus] at hsaved
    · simp [hle]
  | saveResolvedInterval now =>
    simp only [step]
    intro hsaved
    unfold onSavedIntervalStep at hsaved ⊢
    by_cases hle : s.hasLocalEditsSinceSaving = true
    · simp [hle, isSavedStatus] at hsaved
    · simp [hle]
  | saveFailedIdle message =>
    simp only [step]
    intro hsaved
    simp [onErrorIdleStep, isSavedStatus] at hsaved
  | saveFailedInterval message =>
    simp only [step]
    intro hsaved
    simp [onErrorIntervalStep, isSavedStatus] at hsaved
  | externalUpdate wa doc now =>
    simp [Event.isExternalUpdate] at he
  | sceneApplied wa now =>
    simp only [step]
    unfold sceneAppliedStep
    intro hsaved
    split_ifs at hsaved ⊢ <;> exact h hsaved
  | switchSubject newWa =>
    simp only [step, switchSubjectStep]
    intro hsaved
    split_ifs at hsaved ⊢ <;> simp_all [isSavedStatus] <;> exact h hsaved
  | flushNowCall =>
    simp only [step, flushNowStep, flushImmediateStep]
    intro hsaved
    split_ifs at hsaved ⊢ with h1 h2 h3
    · exact h hsaved
    · exact h hsaved
    · exact h hsaved
    · simp [onSavingIdleStep, isSavedStatus] at hsaved
  | visibilityFlush =>
    simp only [step, visibilityFlushStep, flushImmediateStep]
    intro hsaved
    split_ifs at hsaved ⊢ with h1 h2 h3
    · exact h hsaved
    · exact h hsaved
    · exact h hsaved
    · simp [onSavingIdleStep, isSavedStatus] at hsaved

theorem statusInvariant_runTrace (s : SessionState) (evts : List Event)
    (h : StatusInvariant s) (he : ∀ e ∈ evts, e.isExternalUpdate = false) :
    StatusInvariant (runTrace s evts).1 := by
  induction evts generalizing s with
  | nil => exact h
  | cons e rest ih =>
    simp only [runTrace]
    exact ih (step s e).1 (statusInvariant_step s e h (he e (by simp)))
      (fun e2 h2 => he e2 (by simp [h2]))

theorem inflight_edits_sticky_step (s : SessionState) (e : Event)
    (h1 : s.isSaving = true) (h2 : s.hasLocalEditsSinceSaving = true)
    (hr : e.isResolution = false) :
    (step s e).1.isSaving = true ∧ (step s e).1.hasLocalEditsSinceSaving = true := by
  cases e with
  | canvasChange inp now =>
    simp only [step]
    unfold handleCanvasChangeInternal
    split_ifs
    · exact ⟨h1, h2⟩
    · exact ⟨h1, h2⟩
    · exact ⟨h1, h2⟩
    · exact ⟨h1, h2⟩
    · rw [acceptChange_isSaving, acceptChange_hasLocalEdits]
      refine ⟨h1, ?_⟩
      split_ifs <;> simp [h2]
  | idleFire =>
    simp only [step, idleFireStep]
    cases hp : s.idlePending with
    | none => exact ⟨h1, h2⟩
    | some p =>
      dsimp only
      rw [if_pos h1]
      exact ⟨h1, h2⟩
  | heartbeatStart =>
    simp only [step, heartbeatStartStep]
    split_ifs <;> exact ⟨h1, h2⟩
  | heartbeatTick =>
    simp only [step, heartbeatTickStep]
    split_ifs with hc
    · exact absurd hc.2 (by simp [h1])
    · exact ⟨h1, h2⟩
  | saveResolvedIdle scene now => simp [Event.isResolution] at hr
  | saveResolvedInterval now => simp [Event.isResolution] at hr
  | saveFailedIdle message => simp [Event.isResolution] at hr
  | saveFailedInterval message => simp [Event.isResolution] at hr
  | externalUpdate wa doc now =>
    simp only [step, externalUpdateStep, sceneAppliedStep]
    split_ifs <;> exact ⟨h1, h2⟩
  | sceneApplied wa now =>
    simp only [step, sceneAppliedStep]
    split_ifs <;> exact ⟨h1, h2⟩
  | switchSubject newWa =>
    simp only [step, switchSubjectStep]
    split_ifs <;> exact ⟨h1, h2⟩
  | flushNowCall =>
    simp only [step, flushNowStep, flushImmediateStep]
    split_ifs with ha hb
    · exact ⟨h1, h2⟩
    · exact ⟨h1, h2⟩
    · exact ⟨h1, h2⟩
  | visibilityFlush =>
    simp only [step, visibilityFlushStep, flushImmediateStep]
    split_ifs with ha hb
    · exact ⟨h1, h2⟩
    · exact ⟨h1, h2⟩
    · exact ⟨h1, h2⟩

theorem inflight_edits_sticky_runTrace (s : SessionState) (evts : List Event)
    (h1 : s.isSaving = true) (h2 : s.hasLocalEditsSinceSaving = true)
    (hr : ∀ e ∈ evts, e.isResolution = false) :
    (runTrace s evts).1.isSaving = true ∧
    (runTrace s evts).1.hasLocalEditsSinceSaving = true := by
  induction evts generalizing s with
  | nil => exact ⟨h1, h2⟩
  | cons e rest ih =>
    obtain ⟨g1, g2⟩ := inflight_edits_sticky_step s e h1 h2 (hr e (by simp))
    exact ih (step s e).1 g1 g2 (fun e2 he2 => hr e2 (by simp [he2]))

/-- C1 counterexample: the invariant "saveStatus never reads saved while
hasLocalEditsSinceSavingStarted is true" fails as stated.  In the raced
run, an edit lands while the idle persist for subject 201 is in flight
(setting the edits-during-save ref), and then an external update for the
same subject arrives before the persist resolves: its handler sets the
status to saved while clearing only the globalThis mirror flags, leaving
the session-level edits-during-save ref set. -/
theorem saved_status_with_pending_edits_reachable :
    isSavedStatus racedFinal.saveState = true ∧
    racedFinal.hasLocalEditsSinceSaving = true ∧
    racedFinal.isSaving = true ∧
    racedFinal.globalHasLocalEdits = false := by decide

/-- C1 (amended): at every persist resolution, if a content or
editor-camera change was taken in while the save was in flight
(hasLocalEditsSinceSaving set), the status resolves to dirty, not saved;
and in every run that contains no external-update event, the save status
never reads saved while the edits-during-save flag or the in-flight flag
is set.  (The unamended global invariant fails only through the
external-update handler, which sets status saved without clearing the
session-level flags - see the counterexample.) -/
theorem save_resolution_respects_local_edits
    (s : SessionState) (evts : List Event)
    (hinv : StatusInvariant s)
    (hnoext : ∀ e ∈ evts, e.isExternalUpdate = false) :
    StatusInvariant (runTrace s evts).1 ∧
    (∀ s2 : SessionState, ∀ inp : ChangeInput,
      s2.isSaving = true →
      (contentChangedOf s2 inp = true ∨ editorCameraChangedOf s2 inp = true) →
      (acceptChange s2 inp).hasLocalEditsSinceSaving = true) ∧
    (∀ s3 : SessionState, ∀ evts2 : List Event,
      s3.isSaving = true → s3.hasLocalEditsSinceSaving = true →
      (∀ e ∈ evts2, e.isResolution = false) →
      ∀ scene : Scene, ∀ now : ℤ,
        (onSavedIdleStep (runTrace s3 evts2).1 scene now).saveState = SaveState.dirty ∧
        (onSavedIntervalStep (runTrace s3 evts2).1 now).saveState = SaveState.dirty) := by
  refine ⟨statusInvariant_runTrace s evts hinv hnoext, ?_, ?_⟩
  · intro s2 inp hs hch
    rw [acceptChange_hasLocalEdits]
    have : (s2.isSaving && (contentChangedOf s2 inp || editorCameraChangedOf s2 inp)) = true := by
      rcases hch with h | h <;> simp [hs, h]
    rw [if_pos this]
  · intro s3 evts2 hs he hr scene now
    obtain ⟨g1, g2⟩ := inflight_edits_sticky_runTrace s3 evts2 hs he hr
    constructor
    · simp [onSavedIdleStep, g2]
    · simp [onSavedIntervalStep, g2]

theorem save_resolution_respects_local_edits_witness :
    StatusInvariant (runTrace (initialState true true)
      [Event.switchSubject "201",
       Event.sceneApplied "201" 1000,
       Event.canvasChange { elements := 1, appState := 1, files := 1,
                            viewerAppState := none, editorAppState := none } 2000,
       Event.idleFire,
       Event.saveResolvedIdle sceneSaved 3000]).1 ∧
    (∀ s2 : SessionState, ∀ inp : ChangeInput,
      s2.isSaving = true →
      (contentChangedOf s2 inp = true ∨ editorCameraChangedOf s2 inp = true) →
      (acceptChange s2 inp).hasLocalEditsSinceSaving = true) ∧
    (∀ s3 : SessionState, ∀ evts2 : List Event,
      s3.isSaving = true → s3.hasLocalEditsSinceSaving = true →
      (∀ e ∈ evts2, e.isResolution = false) →
      ∀ scene : Scene, ∀ now : ℤ,
        (onSavedIdleStep (runTrace s3 evts2).1 scene now).saveState = SaveState.dirty ∧
        (onSavedIntervalStep (runTrace s3 evts2).1 now).saveState = SaveState.dirty) :=
  save_resolution_respects_local_edits (initialState true true) _
    (by decide) (by decide)

/-- After a switch to subject B and before B's initial scene is applied:
the subject stays B, the gate stays closed, no idle payload is pending and
the heartbeat is stopped. -/
def BlockedInv (B : String) (s : SessionState) : Prop :=
  s.waId = B ∧ s.initialSceneApplied = false ∧ s.idlePending = none ∧ s.intervalRunning = false

theorem blockedInv_step (B : String) (s : SessionState) (e : Event)
    (h : BlockedInv B s) (hs : e.isSwitch = false) (ha : e.isApplyFor B = false) :
    BlockedInv B (step s e).1 ∧ ∀ o ∈ (step s e).2, o.channel = Channel.pagehide := by
  obtain ⟨hwa, happ, hpend, hrun⟩ := h
  cases e with
  | canvasChange inp now =>
    simp only [step]
    rw [handleCanvasChangeInternal_gated s inp now (Or.inr (Or.inr (Or.inl happ)))]
    exact ⟨⟨hwa, happ, hpend, hrun⟩, by simp⟩
  | idleFire =>
    simp only [step, idleFireStep, hpend]
    exact ⟨⟨hwa, happ, hpend, hrun⟩, by simp⟩
  | heartbeatStart =>
    simp only [step, heartbeatStartStep]
    split_ifs with h1
    · exact absurd h1.2.2.2 (by simp [happ])
    · exact ⟨⟨hwa, happ, hpend, rfl⟩, by simp⟩
  | heartbeatTick =>
    simp only [step, heartbeatTickStep]
    split_ifs with h1
    · exact absurd h1.1 (by simp [hrun])
    · exact ⟨⟨hwa, happ, hpend, hrun⟩, by simp⟩
  | saveResolvedIdle scene now =>
    exact ⟨⟨hwa, happ, hpend, hrun⟩, by simp [step]⟩
  | saveResolvedInterval now =>
    exact ⟨⟨hwa, happ, hpend, hrun⟩, by simp [step]⟩
  | saveFailedIdle message =>
    exact ⟨⟨hwa, happ, hpend, hrun⟩, by simp [step]⟩
  | saveFailedInterval message =>
    exact ⟨⟨hwa, happ, hpend, hrun⟩, by simp [step]⟩
  | externalUpdate wa doc now =>
    have hne : wa ≠ B := by simpa [Event.isApplyFor] using ha
    simp only [step, externalUpdateStep]
    split_ifs with h1 h2
    · exact ⟨⟨hwa, happ, hpend, hrun⟩, by simp⟩
    · exact ⟨⟨hwa, happ, hpend, hrun⟩, by simp⟩
    · push_neg at h2
      exact absurd (h2.2.trans hwa) hne
  | sceneApplied wa now =>
    have hne : wa ≠ B := by simpa [Event.isApplyFor] using ha
    simp only [step, sceneAppliedStep]
    split_ifs with h1 h2
    · exact ⟨⟨hwa, happ, hpend, hrun⟩, by simp⟩
    · exact ⟨⟨hwa, happ, hpend, hrun⟩, by simp⟩
    · push_neg at h2
      exact absurd (h2.trans hwa) hne
  | switchSubject newWa =>
    simp [Event.isSwitch] at hs
  | flushNowCall =>
    simp only [step, flushNowStep]
    split_ifs with h1
    · exact ⟨⟨hwa, happ, hpend, hrun⟩, by simp⟩
    · exact ⟨⟨hwa, happ, hpend, hrun⟩, by simp⟩
  | visibilityFlush =>
    simp only [step, visibilityFlushStep, flushImmediateStep]
    split_ifs with h1 h2 h3
    · exact ⟨⟨hwa, happ, hpend, hrun⟩, by simp⟩
    · exact ⟨⟨hwa, happ, hpend, hrun⟩, by simp⟩
    · exact ⟨⟨hwa, happ, hpend, hrun⟩, by simp⟩
    · exact ⟨⟨hwa, happ, hpend, hrun⟩, by simp⟩

theorem blockedInv_runTrace (B : String) (s : SessionState) (evts : List Event)
    (h : BlockedInv B s)
    (hok : ∀ e ∈ evts, e.isSwitch = false ∧ e.isApplyFor B = false) :
    BlockedInv B (runTrace s evts).1 ∧
    ∀ o ∈ (runTrace s evts).2, o.channel = Channel.pagehide := by
  induction evts generalizing s with
  | nil => exact ⟨h, by simp [runTrace]⟩
  | cons e rest ih =>
    obtain ⟨h1, h2⟩ := blockedInv_step B s e h (hok e (by simp)).1 (hok e (by simp)).2
    obtain ⟨h3, h4⟩ := ih (step s e).1 h1 (fun e2 he2 => hok e2 (by simp [he2]))
    refine ⟨h3, ?_⟩
    intro o ho
    simp only [runTrace, List.mem_append] at ho
    rcases ho with ho | ho
    · exact h2 o ho
    · exact h4 o ho

/-- Once the subject is B, every pending idle payload and every issued
persist call is tagged with B. -/
def WaPendingInv (B : String) (s : SessionState) : Prop :=
  s.waId = B ∧ ∀ p, s.idlePending = some p → p.forWaId = B

theorem waPendingInv_step (B : String) (s : SessionState) (e : Event)
    (h : WaPendingInv B s) (hs : e.isSwitch = false) :
    WaPendingInv B (step s e).1 ∧ ∀ o ∈ (step s e).2, o.forWaId = B := by
  obtain ⟨hwa, hpend⟩ := h
  cases e with
  | canvasChange inp now =>
    simp only [step]
    unfold handleCanvasChangeInternal
    split_ifs
    · exact ⟨⟨hwa, hpend⟩, by simp⟩
    · exact ⟨⟨hwa, hpend⟩, by simp⟩
    · exact ⟨⟨hwa, hpend⟩, by simp⟩
    · exact ⟨⟨hwa, hpend⟩, by simp⟩
    · refine ⟨⟨(acceptChange_waId s inp).trans hwa, ?_⟩, by simp⟩
      intro p hp
      rw [acceptChange_idlePending] at hp
      split_ifs at hp
      · cases hp
        exact hwa
      · exact hpend p hp
  | idleFire =>
    simp only [step, idleFireStep]
    cases hp : s.idlePending with
    | none => exact ⟨⟨hwa, hpend⟩, by simp⟩
    | some p =>
      split_ifs with h1
      · exact ⟨⟨hwa, hpend⟩, by simp⟩
      · refine ⟨⟨hwa, by simp [onSavingIdleStep]⟩, ?_⟩
        intro o ho
        simp only [List.mem_singleton] at ho
        subst ho
        exact hpend p hp
  | heartbeatStart =>
    simp only [step, heartbeatStartStep]
    split_ifs with h1
    · exact ⟨⟨hwa, hpend⟩, by simp⟩
    · exact ⟨⟨hwa, hpend⟩, by simp⟩
  | heartbeatTick =>
    simp only [step, heartbeatTickStep]
    split_ifs with h1
    · refine ⟨⟨hwa, hpend⟩, ?_⟩
      intro o ho
      simp only [List.mem_singleton] at ho
      subst ho
      exact hwa
    · exact ⟨⟨hwa, hpend⟩, by simp⟩
  | saveResolvedIdle scene now =>
    exact ⟨⟨hwa, hpend⟩, by simp [step]⟩
  | saveResolvedInterval now =>
    exact ⟨⟨hwa, hpend⟩, by simp [step]⟩
  | saveFailedIdle message =>
    exact ⟨⟨hwa, hpend⟩, by simp [step]⟩
  | saveFailedInterval message =>
    exact ⟨⟨hwa, hpend⟩, by simp [step]⟩
  | externalUpdate wa doc now =>
    simp only [step, externalUpdateStep, sceneAppliedStep]
    split_ifs <;> exact ⟨⟨hwa, hpend⟩, by simp⟩
  | sceneApplied wa now =>
    simp only [step, sceneAppliedStep]
    split_ifs <;> exact ⟨⟨hwa, hpend⟩, by simp⟩
  | switchSubject newWa =>
    simp [Event.isSwitch] at hs
  | flushNowCall =>
    simp only [step, flushNowStep, flushImmediateStep]
    split_ifs with h1 h2 h3
    · exact ⟨⟨hwa, hpend⟩, by simp⟩
    · exact ⟨⟨hwa, hpend⟩, by simp⟩
    · exact ⟨⟨hwa, hpend⟩, by simp⟩
    · refine ⟨⟨hwa, hpend⟩, ?_⟩
      intro o ho
      simp only [List.mem_singleton] at ho
      subst ho
      exact hwa
  | visibilityFlush =>
    simp only [step, visibilityFlushStep, flushImmediateStep]
    split_ifs with h1 h2 h3
    · exact ⟨⟨hwa, hpend⟩, by simp⟩
    · exact ⟨⟨hwa, hpend⟩, by simp⟩
    · exact ⟨⟨hwa, hpend⟩, by simp⟩
    · refine ⟨⟨hwa, hpend⟩, ?_⟩
      intro o ho
      simp only [List.mem_singleton] at ho
      subst ho
      exact hwa

theorem waPendingInv_runTrace (B : String) (s : SessionState) (evts : List Event)
    (h : WaPendingInv B s)
    (hok : ∀ e ∈ evts, e.isSwitch = false) :
    WaPendingInv B (runTrace s evts).1 ∧
    ∀ o ∈ (runTrace s evts).2, o.forWaId = B := by
  induction evts generalizing s with
  | nil => exact ⟨h, by simp [runTrace]⟩
  | cons e rest ih =>
    obtain ⟨h1, h2⟩ := waPendingInv_step B s e h (hok e (by simp))
    obtain ⟨h3, h4⟩ := ih (step s e).1 h1 (fun e2 he2 => hok e2 (by simp [he2]))
    refine ⟨h3, ?_⟩
    intro o ho
    simp only [runTrace, List.mem_append] at ho
    rcases ho with ho | ho
    · exact h2 o ho
    · exact h4 o ho

theorem switchSubjectStep_resets (s : SessionState) (B : String)
    (hen : s.enabled = true) (hB : B ≠ "") :
    BlockedInv B (switchSubjectStep s B) ∧
    (switchSubjectStep s B).lastSavedViewerSig = none ∧
    (switchSubjectStep s B).lastSavedEditorSig = none ∧
    (switchSubjectStep s B).isDirty = false := by
  unfold BlockedInv
  simp only [switchSubjectStep]
  split_ifs <;> simp_all

/-- C3: switching the bound subject from A to B cancels the idle
scheduler's pending timer and stops the heartbeat, resets the
initial-scene gate, both camera-signature trackers and the dirty flag;
until an apply event for B arrives (external update or sceneApplied), the
gate stays closed and no persist is issued by the idle timer, the
heartbeat or flushNow (only the ungated page-hide flush can still fire);
and in any continuation that does not switch again, every persist call is
tagged with B, hence never with A's id.  The idle scheduler internals
(cancel and timer fire) are modelled from spec section 4.2. -/
theorem subject_switch_isolation
    (s : SessionState) (B : String)
    (hen : s.enabled = true) (hB : B ≠ "") (hAB : s.waId ≠ B) :
    (switchSubjectStep s B).idlePending = none ∧
    (switchSubjectStep s B).intervalRunning = false ∧
    (switchSubjectStep s B).initialSceneApplied = false ∧
    (switchSubjectStep s B).lastSavedViewerSig = none ∧
    (switchSubjectStep s B).lastSavedEditorSig = none ∧
    (switchSubjectStep s B).isDirty = false ∧
    (∀ evts : List Event,
      (∀ e ∈ evts, e.isSwitch = false ∧ e.isApplyFor B = false) →
      (runTrace (switchSubjectStep s B) evts).1.initialSceneApplied = false ∧
      ∀ o ∈ (runTrace (switchSubjectStep s B) evts).2,
        o.channel ≠ Channel.idleTimer ∧ o.channel ≠ Channel.heartbeat ∧
        o.channel ≠ Channel.flushNowCh) ∧
    (∀ evts : List Event,
      (∀ e ∈ evts, e.isSwitch = false) →
      ∀ o ∈ (runTrace (switchSubjectStep s B) evts).2,
        o.forWaId = B ∧ o.forWaId ≠ s.waId) := by
  obtain ⟨hblocked, hv, he2, hd⟩ := switchSubjectStep_resets s B hen hB
  refine ⟨hblocked.2.2.1, hblocked.2.2.2, hblocked.2.1, hv, he2, hd, ?_, ?_⟩
  · intro evts hok
    obtain ⟨hb2, hch⟩ := blockedInv_runTrace B _ evts hblocked hok
    refine ⟨hb2.2.1, ?_⟩
    intro o ho
    have hc := hch o ho
    simp [hc]
  · intro evts hok
    have hwp : WaPendingInv B (switchSubjectStep s B) :=
      ⟨hblocked.1, fun p hp => by rw [hblocked.2.2.1] at hp; cases hp⟩
    obtain ⟨hw2, hfa⟩ := waPendingInv_runTrace B _ evts hwp hok
    intro o ho
    refine ⟨hfa o ho, ?_⟩
    rw [hfa o ho]
    exact fun hBA => hAB hBA.symm

theorem subject_switch_isolation_witness :
    (switchSubjectStep (initialState true true) "201").idlePending = none ∧
    (switchSubjectStep (initialState true true) "201").initialSceneApplied = false ∧
    ∀ o ∈ (runTrace (switchSubjectStep (initialState true true) "201")
        [Event.heartbeatStart, Event.heartbeatTick, Event.idleFire, Event.flushNowCall]).2,
      o.channel ≠ Channel.idleTimer ∧ o.channel ≠ Channel.heartbeat ∧
      o.channel ≠ Channel.flushNowCh :=
  have h := subject_switch_isolation (initialState true true) "201" rfl
    (by decide) (by decide)
  ⟨h.1, h.2.2.1,
   (h.2.2.2.2.2.2.1
      [Event.heartbeatStart, Event.heartbeatTick, Event.idleFire, Event.flushNowCall]
      (by decide)).2⟩

/-- C2: an external-update event whose subject id differs from the bound
subject changes nothing; a matching one records the received scene's
content signature and both camera signatures (none when the scene carries
no such camera) as the new last-saved baselines, clears the in-flight and
edits-during-save flags (the globalThis mirror flags __docIsSaving and
__docHasLocalEditsDuringSave; the session refs are untouched, see the C1
counterexample), resolves status to saved(now), ends the loading state,
opens a suppression window (net 400 ms: the handler sets now+1200 and the
synchronously dispatched sceneApplied echo overwrites it with now+400),
marks the initial scene applied, resets the dirty flag and records the
subject as loaded. -/
theorem external_update_reconciliation
    (s : SessionState) (wa : String) (doc : Option Scene) (now : ℤ)
    (hbound : s.waId ≠ "") :
    (wa ≠ s.waId → externalUpdateStep s wa doc now = s) ∧
    (wa = s.waId →
      (externalUpdateStep s wa doc now).lastSavedSig =
        some (computeDocumentSignature (toSceneFromDoc doc).elements
          (toSceneFromDoc doc).appState (toSceneFromDoc doc).files) ∧
      (externalUpdateStep s wa doc now).lastSavedViewerSig =
        Option.map computeViewerCameraSig (toSceneFromDoc doc).viewerAppState ∧
      (externalUpdateStep s wa doc now).lastSavedEditorSig =
        Option.map computeViewerCameraSig (toSceneFromDoc doc).editorAppState ∧
      (externalUpdateStep s wa doc now).globalIsSaving = false ∧
      (externalUpdateStep s wa doc now).globalHasLocalEdits = false ∧
      (externalUpdateStep s wa doc now).saveState = SaveState.saved now ∧
      (externalUpdateStep s wa doc now).loading = false ∧
      (externalUpdateStep s wa doc now).ignoreChangesUntil = now + 400 ∧
      (externalUpdateStep s wa doc now).initialSceneApplied = true ∧
      (externalUpdateStep s wa doc now).isDirty = false ∧
      (externalUpdateStep s wa doc now).lastLoadedWaId = some s.waId) := by
  constructor
  · intro hne
    unfold externalUpdateStep
    rw [if_neg hbound, if_pos (Or.inr hne)]
  · intro heq
    subst heq
    rcases hv : (toSceneFromDoc doc).viewerAppState with _ | v <;>
      rcases he : (toSceneFromDoc doc).editorAppState with _ | ev <;>
        simp [externalUpdateStep, sceneAppliedStep, hbound, hv, he]

theorem external_update_reconciliation_witness :
    (externalUpdateStep boundState "201" (some scene201) 5000).saveState = SaveState.saved 5000 ∧
    (externalUpdateStep boundState "201" (some scene201) 5000).initialSceneApplied = true ∧
    (externalUpdateStep boundState "201" (some scene201) 5000).loading = false :=
  have h := (external_update_reconciliation boundState "201" (some scene201) 5000
    (by decide)).2 (by decide)
  ⟨h.2.2.2.2.2.1, h.2.2.2.2.2.2.2.2.1, h.2.2.2.2.2.2.1⟩

theorem acceptChange_isDirty (s : SessionState) (inp : ChangeInput) :
    (acceptChange s inp).isDirty =
      (if ((contentChangedOf s inp || editorCameraChangedOf s inp) && !s.isSaving && !s.isDirty) = true
       then true else s.isDirty) := rfl

/-- C4: a change notification taken while no subject is selected, while the
document is locked, before the initial scene is applied for the current
subject, or inside an active suppression window (the per-session
ignore-until or the non-zero global ignore-changes-until guard) returns
without any effect: the state (status, every flag, and the idle schedule)
is unchanged. -/
theorem change_intake_gates_no_effect
    (s : SessionState) (inp : ChangeInput) (now : ℤ)
    (h : s.waId = "" ∨ s.isUnlocked = false ∨ s.initialSceneApplied = false ∨
         now < s.ignoreChangesUntil ∨
         (s.globalIgnoreChangesUntil ≠ 0 ∧ now < s.globalIgnoreChangesUntil)) :
    handleCanvasChangeInternal s inp now = s :=
  handleCanvasChangeInternal_gated s inp now h

theorem change_intake_gates_no_effect_witness :
    handleCanvasChangeInternal (initialState true true)
      { elements := 1, appState := 1, files := 1, viewerAppState := none, editorAppState := none } 0 =
      initialState true true :=
  change_intake_gates_no_effect (initialState true true) _ 0 (Or.inl rfl)

/-- C5 counterexample: an accepted change notification in which only the
viewer camera changed (content and editor camera unchanged), taken with no
save in flight and a not-yet-dirty status, does not transition the status
to dirty: in the run below the status stays saved(3000) even though the
viewer-camera classification reports a change (the change is only
scheduled for a background save, idlePending is set). -/
theorem viewer_camera_only_change_keeps_status :
    viewerOnlyPre.isSaving = false ∧
    viewerOnlyPre.isDirty = false ∧
    viewerOnlyPre.enabled = true ∧
    viewerOnlyPre.waId = "201" ∧
    viewerOnlyPre.isUnlocked = true ∧
    viewerOnlyPre.initialSceneApplied = true ∧
    viewerOnlyPre.ignoreChangesUntil ≤ 4000 ∧
    viewerOnlyPre.globalIgnoreChangesUntil = 0 ∧
    viewerCameraChangedOf viewerOnlyPre viewerOnlyInput = true ∧
    contentChangedOf viewerOnlyPre viewerOnlyInput = false ∧
    editorCameraChangedOf viewerOnlyPre viewerOnlyInput = false ∧
    viewerOnlyPost.saveState = SaveState.saved 3000 ∧
    viewerOnlyPost.isDirty = false ∧
    viewerOnlyPost.idlePending ≠ none := by decide

/-- C5 (amended): for every accepted change notification with no save in
flight and a not-already-dirty flag, the status transitions to dirty
exactly when content or the editor camera changed; a viewer-camera-only
change schedules a background save but leaves the status untouched. -/
theorem content_or_editor_change_sets_dirty
    (s : SessionState) (inp : ChangeInput) (now : ℤ)
    (hen : s.enabled = true) (hwa : s.waId ≠ "") (hul : s.isUnlocked = true)
    (hap : s.initialSceneApplied = true)
    (hig : ¬ now < s.ignoreChangesUntil)
    (hg : ¬(s.globalIgnoreChangesUntil ≠ 0 ∧ now < s.globalIgnoreChangesUntil))
    (hsv : s.isSaving = false) (hdr : s.isDirty = false)
    (hch : contentChangedOf s inp = true ∨ editorCameraChangedOf s inp = true) :
    (handleCanvasChangeInternal s inp now).saveState = SaveState.dirty ∧
    (handleCanvasChangeInternal s inp now).isDirty = true := by
  have hacc : handleCanvasChangeInternal s inp now = acceptChange s inp := by
    unfold handleCanvasChangeInternal
    rw [if_neg (by simp [hen, hwa, hul]), if_neg (by simp [hap]), if_neg hig, if_neg hg]
  have hbd : ((contentChangedOf s inp || editorCameraChangedOf s inp) && !s.isSaving && !s.isDirty) = true := by
    rcases hch with h | h <;> simp [h, hsv, hdr]
  rw [hacc, acceptChange_saveState, acceptChange_isDirty, if_pos hbd, if_pos hbd]
  exact ⟨rfl, rfl⟩

theorem content_or_editor_change_sets_dirty_witness :
    (handleCanvasChangeInternal freshEditableState
      { elements := 1, appState := 1, files := 1, viewerAppState := none, editorAppState := none } 0).saveState =
      SaveState.dirty ∧
    (handleCanvasChangeInternal freshEditableState
      { elements := 1, appState := 1, files := 1, viewerAppState := none, editorAppState := none } 0).isDirty =
      true :=
  content_or_editor_change_sets_dirty freshEditableState _ 0 rfl (by decide) rfl rfl
    (by decide) (by decide) rfl rfl (Or.inl (by decide))

/-- C6: a provided viewer or editor camera is classified as changed exactly
when its rounded signature differs from the last-saved signature baseline
(recorded by the idle onSaved callback and the external-update handler),
not from the last observed camera; the signature depends only on the
rounded values (zoom times 1000 rounded, scroll rounded to the nearest
pixel), so two cameras equal after rounding are never classified as a
change relative to each other. -/
theorem camera_change_classified_by_saved_signature
    (s : SessionState) (inp : ChangeInput) (v e : CameraState)
    (hv : inp.viewerAppState = some v) (he : inp.editorAppState = some e) :
    (viewerCameraChangedOf s inp = true ↔ some (computeViewerCameraSig v) ≠ s.lastSavedViewerSig) ∧
    (editorCameraChangedOf s inp = true ↔ some (computeViewerCameraSig e) ≠ s.lastSavedEditorSig) ∧
    (∀ v2 : CameraState,
      jsRound (v.zoom.getD 1 * 1000) = jsRound (v2.zoom.getD 1 * 1000) →
      jsRound (v.scrollX.getD 0) = jsRound (v2.scrollX.getD 0) →
      jsRound (v.scrollY.getD 0) = jsRound (v2.scrollY.getD 0) →
      computeViewerCameraSig v = computeViewerCameraSig v2) ∧
    (s.lastSavedViewerSig = some (computeViewerCameraSig v) →
      viewerCameraChangedOf s inp = false) := by
  refine ⟨?_, ?_, ?_, ?_⟩
  · unfold viewerCameraChangedOf
    rw [hv]
    dsimp only
    split_ifs with h <;> simp [h]
  · unfold editorCameraChangedOf
    rw [he]
    dsimp only
    split_ifs with h <;> simp [h]
  · intro v2 h1 h2 h3
    simp only [computeViewerCameraSig]
    rw [h1, h2, h3]
  · intro hls
    unfold viewerCameraChangedOf
    rw [hv]
    dsimp only
    split_ifs with h
    · rfl
    · exact absurd hls.symm h

theorem camera_change_classified_by_saved_signature_witness :
    computeViewerCameraSig camNearA = computeViewerCameraSig camNearB ∧
    camNearA ≠ camNearB ∧
    viewerCameraChangedOf
      { initialState true true with lastSavedViewerSig := some (computeViewerCameraSig camNearB) }
      { elements := 1, appState := 1, files := 1, viewerAppState := some camNearA,
        editorAppState := some camNearA } = false :=
  have h := camera_change_classified_by_saved_signature
    { initialState true true with lastSavedViewerSig := some (computeViewerCameraSig camNearB) }
    { elements := 1, appState := 1, files := 1, viewerAppState := some camNearA,
      editorAppState := some camNearA }
    camNearA camNearA rfl rfl
  ⟨h.2.2.1 camNearB (by decide) (by decide) (by decide), by decide, h.2.2.2 (by decide)⟩

/-- C7: both schedulers' onError callbacks clear the in-flight flag (so a
later qualifying edit or heartbeat tick can attempt a fresh persist) and
set the status to error carrying the reported message when one is
provided. -/
theorem persist_failure_clears_in_flight
    (s : SessionState) (message : Option String) :
    (onErrorIdleStep s message).isSaving = false ∧
    (onErrorIdleStep s message).saveState = SaveState.error message ∧
    (onErrorIntervalStep s message).isSaving = false ∧
    (onErrorIntervalStep s message).saveState = SaveState.error message :=
  ⟨rfl, rfl, rfl, rfl⟩

/-- C8: an editor-canvas change received while a pointer or touch
interaction is active cancels any pending batched update (the queued
animation frame and the throttle timeout) and pushes the new element set
to the viewer synchronously; the pushed update carries only the elements,
no appState/camera and no files. -/
theorem active_pointer_mirror_sync_elements_only
    (m : MirrorState) (elements : Nat) (appState : EditorCameraTokens)
    (files : Nat) (now : ℤ) :
    MirrorObs.updateScene { elements := elements, appState := none, files := none } ∈
      (handleCanvasChange m elements appState files true true now).2 ∧
    (∀ u : ViewerUpdate,
      MirrorObs.updateScene u ∈ (handleCanvasChange m elements appState files true true now).2 →
      u = { elements := elements, appState := none, files := none }) ∧
    (handleCanvasChange m elements appState files true true now).1.rafSlot = none ∧
    (handleCanvasChange m elements appState files true true now).1.timeoutPending = false := by
  cases hc : m.lastEditorCamera with
  | none => simp [handleCanvasChange, hc]
  | some c =>
    by_cases hz : c.zoom ≠ appState.zoom ∨ c.scrollX ≠ appState.scrollX ∨ c.scrollY ≠ appState.scrollY
    · simp [handleCanvasChange, hc, hz]
    · simp [handleCanvasChange, hc, hz]

theorem active_pointer_mirror_sync_elements_only_witness :
    MirrorObs.updateScene { elements := 1, appState := none, files := none } ∈
      (handleCanvasChange
        { viewerCamera := 9, lastLiveSceneUpdate := 0, pendingLiveScene := none,
          rafSlot := some (5, 6), timeoutPending := true, lastEditorCamera := none }
        1 { zoom := 1, scrollX := 2, scrollY := 3 } 2 true true 0).2 ∧
    (handleCanvasChange
        { viewerCamera := 9, lastLiveSceneUpdate := 0, pendingLiveScene := none,
          rafSlot := some (5, 6), timeoutPending := true, lastEditorCamera := none }
        1 { zoom := 1, scrollX := 2, scrollY := 3 } 2 true true 0).1.rafSlot = none ∧
    (handleCanvasChange
        { viewerCamera := 9, lastLiveSceneUpdate := 0, pendingLiveScene := none,
          rafSlot := some (5, 6), timeoutPending := true, lastEditorCamera := none }
        1 { zoom := 1, scrollX := 2, scrollY := 3 } 2 true true 0).1.timeoutPending = false :=
  have h := active_pointer_mirror_sync_elements_only
    { viewerCamera := 9, lastLiveSceneUpdate := 0, pendingLiveScene := none,
      rafSlot := some (5, 6), timeoutPending := true, lastEditorCamera := none }
    1 { zoom := 1, scrollX := 2, scrollY := 3 } 2 0
  ⟨h.1, h.2.2.1, h.2.2.2⟩

/-- C9: the unlock recomputation evaluates to unlocked exactly when the
bound subject id is non-empty and differs from the default blank document
id, the fetched name cell is a string whose trimmed value is non-empty,
and the fetched phone cell is a string whose trimmed value starts with
"+"; every other combination evaluates to locked. -/
theorem unlock_gate_characterization (waId : String) (nameVal phoneVal : CellValue) :
    recomputeUnlock waId (Except.ok (nameVal, phoneVal)) = true ↔
      ((waId ≠ "" ∧ waId ≠ DEFAULT_DOCUMENT_WA_ID) ∧
       (∃ v, nameVal = CellValue.str v ∧ 0 < (jsTrim v).length) ∧
       (∃ v, phoneVal = CellValue.str v ∧ jsStartsWith (jsTrim v) "+" = true)) := by
  unfold recomputeUnlock
  split_ifs with h
  · constructor
    · intro hf
      cases hf
    · rintro ⟨⟨h1, h2⟩, -, -⟩
      rcases h with h | h
      · exact absurd h h1
      · exact absurd h h2
  · push_neg at h
    cases nameVal <;> cases phoneVal <;>
      simp [h.1, h.2, DEFAULT_DOCUMENT_WA_ID]

theorem unlock_gate_characterization_witness :
    recomputeUnlock "21655123" (Except.ok (CellValue.str "Alice", CellValue.str " +216 55 123")) = true :=
  (unlock_gate_characterization "21655123" (CellValue.str "Alice") (CellValue.str " +216 55 123")).mpr
    ⟨⟨by decide, by decide⟩, ⟨"Alice", rfl, by decide⟩, ⟨" +216 55 123", rfl, by decide⟩⟩

/-- C10: the unlock gate fails closed: whenever reading the validation
cells throws, the recomputation evaluates to locked, never unlocked. -/
theorem unlock_gate_fails_closed (waId : String) (err : String) :
    recomputeUnlock waId (Except.error err) = false := by
  unfold recomputeUnlock
  split_ifs <;> rfl
